import Mathlib

/-!
Verification development for the web-health-check repository's link-checking
subsystem (src/modules/linkChecker.js) and its CLI entry points (src/index.js).

The JavaScript code is shallowly embedded: the network is modelled as an
oracle (`NetEnv`) describing, for one URL, what the fast axios tier and the
puppeteer fallback tier would do; `checkLink` is a pure function of that
oracle mirroring the source's control flow, and it additionally returns the
list of browser-session open/close events it performed, so that resource
handling can be stated.
-/

/-- A completed axios GET: the final HTTP status and the final request URL
(`response.request.res.responseUrl`), after redirects. -/
structure FastResp where
  status : Nat
  responseUrl : String
deriving DecidableEq

/-- Outcome of the fast tier (`axios.get` with `validateStatus: () => true`):
either the request completed with some status, or a transport-level failure
threw with `error.code || error.message` modelled as one string. -/
inductive FastOutcome where
  | resp (r : FastResp)
  | transportErr (code : String)
deriving DecidableEq

/-- A puppeteer navigation response: `pageResponse.status()` and
`pageResponse.url()`. -/
structure PageResp where
  status : Nat
  url : String
deriving DecidableEq

/-- Behaviour of the fallback tier for this URL. `page.goto` rejections are
already converted to `null` by the source's `.catch(e => null)`, so the
navigation itself is modelled as `nav (Option PageResp)`; the two remaining
failure modes are `puppeteer.launch` throwing and `browser.newPage` throwing. -/
inductive FallbackBehavior where
  | launchErr
  | newPageErr
  | nav (resp : Option PageResp)
deriving DecidableEq

/-- The network oracle for one URL: what each tier would do if invoked. -/
structure NetEnv where
  fast : FastOutcome
  fallback : FallbackBehavior
deriving DecidableEq

/-- Browser-session lifecycle events emitted by `checkLink`. -/
inductive BrowserEvent where
  | opened
  | closed
deriving DecidableEq, BEq

/-- Result of running the fallback block's body
(`launch; newPage; goto.catch(null); close`): either control reached past
`browser.close()` with the navigation's response, or an exception escaped
the block body (caught by the surrounding `catch (puppeteerError)`). -/
inductive FallbackRun where
  | completed (pageResponse : Option PageResp)
  | threw
deriving DecidableEq

/-- Semantics of the fallback block body, with the browser events it emits.
When `browser.newPage` throws, the browser has been launched but
`browser.close()` is never reached, so only `opened` is emitted. -/
def runFallback : FallbackBehavior → FallbackRun × List BrowserEvent
  | .launchErr => (.threw, [])
  | .newPageErr => (.threw, [.opened])
  | .nav r => (.completed r, [.opened, .closed])

/-- The per-link result object built by `checkLink` in the source. -/
structure LinkResult where
  url : String
  status : Nat
  working : Bool
  checkedWith : String
  redirectUrl : Option String
  error : Option String
deriving DecidableEq

/-- The success object returned when a puppeteer navigation yields a
response (`working: true, checkedWith: 'puppeteer'`). -/
def puppeteerSuccess (url : String) (pr : PageResp) : LinkResult :=
  { url := url, status := pr.status, working := true, checkedWith := "puppeteer",
    redirectUrl := if pr.url ≠ url then some pr.url else none, error := none }

/-- The classification of a completed axios status at the end of `checkLink`:
2xx/3xx is working, anything else is broken with `error = "HTTP status {s}"`. -/
def axiosStatusResult (url : String) (status : Nat) (responseUrl : String) : LinkResult :=
  if 200 ≤ status ∧ status < 400 then
    { url := url, status := status, working := true, checkedWith := "axios",
      redirectUrl := if responseUrl ≠ url then some responseUrl else none, error := none }
  else
    { url := url, status := status, working := false, checkedWith := "axios",
      redirectUrl := none, error := some ("HTTP status " ++ toString status) }

/-- Shallow embedding of `checkLink` from src/modules/linkChecker.js, also
returning the browser-session events performed. -/
def checkLink (url : String) (env : NetEnv) : LinkResult × List BrowserEvent :=
  match env.fast with
  | .resp r =>
    if r.status = 403 ∨ r.status = 400 then
      match runFallback env.fallback with
      | (.completed (some pr), ev) => (puppeteerSuccess url pr, ev)
      | (.completed none, ev) => (axiosStatusResult url r.status r.responseUrl, ev)
      | (.threw, ev) =>
        ({ url := url, status := r.status, working := false, checkedWith := "both",
           redirectUrl := none, error := some ("HTTP status " ++ toString r.status) }, ev)
    else
      (axiosStatusResult url r.status r.responseUrl, [])
  | .transportErr code =>
    match runFallback env.fallback with
    | (.completed (some pr), ev) => (puppeteerSuccess url pr, ev)
    | (.completed none, ev) =>
      ({ url := url, status := 0, working := false, checkedWith := "both",
         redirectUrl := none, error := some code }, ev)
    | (.threw, ev) =>
      ({ url := url, status := 0, working := false, checkedWith := "both",
         redirectUrl := none, error := some code }, ev)

/-- The fast tier completed with an HTTP status in [200, 400). -/
def fastStatusOk (env : NetEnv) : Prop :=
  match env.fast with
  | .resp r => 200 ≤ r.status ∧ r.status < 400
  | .transportErr _ => False

/-- The control flow of `checkLink` reaches the fallback tier: the fast tier
returned exactly 403 or 400, or it failed at the transport level. -/
def fallbackAttempted (env : NetEnv) : Prop :=
  match env.fast with
  | .resp r => r.status = 403 ∨ r.status = 400
  | .transportErr _ => True

/-- The fallback behaviour yields a response object when run. -/
def fallbackHasResponse : FallbackBehavior → Bool
  | .nav (some _) => true
  | _ => false

/-- During the actual resolution a browser-fallback navigation produced a
response object. -/
def fallbackGaveResponse (env : NetEnv) : Prop :=
  fallbackAttempted env ∧ fallbackHasResponse env.fallback = true

/-- The JS batch size constant (`const batchSize = 5`). -/
def batchSize : Nat := 5

/-- The JS inter-batch cooldown (`setTimeout(resolve, 1000)`). -/
def interBatchDelayMs : Nat := 1000

/-- The duplicate-removal step of `checkLinks`
(`.filter((value, index, self) => self.indexOf(value) === index)`): keep the
first occurrence of every URL. -/
def dedupFirst : List String → List String
  | [] => []
  | x :: xs => x :: dedupFirst (xs.filter (fun y => y != x))
termination_by l => l.length
decreasing_by
  exact Nat.lt_succ_of_le (List.length_filter_le _ _)

/-- The batch partition of `checkLinks`
(`for (let i = 0; i < links.length; i += batchSize) batches.push(links.slice(i, i + batchSize))`). -/
def toBatches : List String → List (List String)
  | [] => []
  | x :: xs => ((x :: xs).take batchSize) :: toBatches ((x :: xs).drop batchSize)
termination_by l => l.length
decreasing_by
  simp only [List.length_drop, List.length_cons, batchSize]
  omega

/-- Scheduling events of the batch loop: a batch completing as a whole
(`await Promise.all(...)`) and the cooldown between batches. -/
inductive SchedEvent where
  | batchDone (results : List LinkResult)
  | delay (ms : Nat)
deriving DecidableEq

/-- Resolve one URL against the oracle, keeping only the result object. -/
def resolveOne (env : String → NetEnv) (u : String) : LinkResult :=
  (checkLink u (env u)).1

/-- The batch loop of `checkLinks`: each batch's results are computed as a
whole, split into working/notWorking preserving batch order, and a fixed
delay follows each batch. Returns (working, notWorking, scheduling trace). -/
def runBatches (env : String → NetEnv) :
    List (List String) → List LinkResult × List LinkResult × List SchedEvent
  | [] => ([], [], [])
  | b :: bs =>
    let batchResults := b.map (resolveOne env)
    let rest := runBatches env bs
    (batchResults.filter (fun r => r.working) ++ rest.1,
     batchResults.filter (fun r => !r.working) ++ rest.2.1,
     SchedEvent.batchDone batchResults :: SchedEvent.delay interBatchDelayMs :: rest.2.2)

/-- An entry of `pageData.links` as consumed by `checkLinks`. -/
structure PageLink where
  href : String
  text : String
  rel : Option String
deriving DecidableEq

/-- The link preprocessing of `checkLinks`: keep nonempty hrefs, project to
the href, and deduplicate keeping first occurrences. -/
def dedupedUrls (pageLinks : List PageLink) : List String :=
  dedupFirst
    ((pageLinks.filter (fun l => !(l.href == "") && !(l.href.trim == ""))).map
      (fun l => l.href))

/-- One entry of the `formattedResults` array returned by `checkLinks`, with
`details` flattened into `detailsCount` and `detailsLinks`. -/
structure TestResult where
  test : String
  status : String
  message : String
  detailsCount : Nat
  detailsLinks : List LinkResult
deriving DecidableEq

/-- The final formatting step of `checkLinks` building the two-entry array. -/
def formatResults (working notWorking : List LinkResult) : List TestResult :=
  [ { test := "Working Links", status := "pass",
      message := "Found " ++ toString working.length ++ " working links",
      detailsCount := working.length, detailsLinks := working },
    { test := "Broken Links",
      status := if notWorking.length = 0 then ("pass") else ("fail"),
      message := if notWorking.length = 0 then ("No broken links found")
        else ("Found " ++ toString notWorking.length ++ " broken links"),
      detailsCount := notWorking.length, detailsLinks := notWorking } ]

/-- Shallow embedding of the exported `checkLinks` from
src/modules/linkChecker.js: dedup, batch loop, formatted two-entry report. -/
def checkLinks (env : String → NetEnv) (pageLinks : List PageLink) : List TestResult :=
  let links := dedupedUrls pageLinks
  let out := runBatches env (toBatches links)
  formatResults out.1 out.2.1

/-- A DOM anchor as seen by the extraction script in `runLinkChecker`
(src/index.js): its resolved href string (`a.href || a.getAttribute('href') || ''`),
text content and rel attribute. -/
structure DomAnchor where
  href : String
  text : String
  rel : Option String
deriving DecidableEq

/-- Input of the extraction script inside `page.evaluate`: the page origin and
path, the DOM anchors in document order, and the href attribute values found
by the raw-HTML regex pass and by the specific-pattern regex pass, in match
order. -/
structure PageSnapshot where
  origin : String
  path : String
  anchors : List DomAnchor
  htmlHrefs : List String
  specificHrefs : List String
deriving DecidableEq

/-- Boolean prefix test on strings, modelling the JS `startsWith` used by the
extraction script; implemented over the character sequence so that concrete
instances evaluate by reduction. -/
def strStartsWith (s p : String) : Bool := p.data.isPrefixOf s.data

/-- The shared skip filter: empty, `#`, `javascript:`, `mailto:`, `tel:`. -/
def skipHref (href : String) : Bool :=
  href == "" || href == "#" || strStartsWith href ("javascript:") ||
    strStartsWith href ("mailto:") || strStartsWith href ("tel:")

/-- `path.substring(0, path.lastIndexOf('/') + 1)`: the prefix of `path` up to
and including its last slash (empty when there is no slash). -/
def basePath (path : String) : String :=
  String.mk (((path.data.reverse).dropWhile (fun c => c != '/')).reverse)

/-- The shared absolutization: root-relative hrefs get the origin prepended;
hrefs that start with neither `http` nor `//` are resolved against the
current directory of `path`. -/
def absolutize (origin path href : String) : String :=
  if strStartsWith href ("/") && !strStartsWith href ("//") then origin ++ href
  else if !strStartsWith href ("http") && !strStartsWith href ("//") then
    origin ++ basePath path ++ href
  else href

/-- A link record pushed by the extraction script. -/
structure ExtractedLink where
  href : String
  text : String
  rel : Option String
  source : String
deriving DecidableEq

/-- Method 1 of the extraction script: traverse DOM anchors, skip filtered
schemes, absolutize, and push every surviving anchor (no deduplication). -/
def domPass (origin path : String) (anchors : List DomAnchor) : List ExtractedLink :=
  anchors.filterMap (fun a =>
    if skipHref a.href then none
    else some { href := absolutize origin path a.href, text := a.text.trim,
                rel := a.rel, source := "dom" })

/-- Methods 2 and 3 of the extraction script: walk regex matches, skip
filtered schemes, absolutize, and append only hrefs not already in the
`foundUrls` set (threaded as the second component). -/
def scanPass (origin path source text : String) (rel : Option String) :
    List String → List ExtractedLink × List String → List ExtractedLink × List String
  | [], acc => acc
  | h :: hs, acc =>
    if skipHref h then scanPass origin path source text rel hs acc
    else if acc.2.contains (absolutize origin path h) then
      scanPass origin path source text rel hs acc
    else scanPass origin path source text rel hs
      (acc.1 ++ [{ href := absolutize origin path h, text := text, rel := rel,
                   source := source }],
       absolutize origin path h :: acc.2)

/-- Shallow embedding of the link-extraction script of `runLinkChecker` in
src/index.js: DOM pass, then `foundUrls` is initialized from the DOM pass
results, then the raw-HTML regex pass and the specific-pattern pass. -/
def extractLinks (s : PageSnapshot) : List ExtractedLink :=
  (scanPass s.origin s.path ("specific-pattern") ("Special link") none s.specificHrefs
    (scanPass s.origin s.path ("regex") ("") none s.htmlHrefs
      (domPass s.origin s.path s.anchors,
       (domPass s.origin s.path s.anchors).map (fun l => l.href)))).1

/-- Invariant of the scan passes: every pushed href is registered in the
`foundUrls` set, and every non-DOM entry's href occurs exactly once in the
whole list. -/
def goodExtraction (links : List ExtractedLink) (found : List String) : Prop :=
  (∀ l ∈ links, l.href ∈ found) ∧
  (∀ l ∈ links, l.source ≠ "dom" →
    (links.map (fun l' => l'.href)).count l.href = 1)

/-- A concrete snapshot whose DOM pass discovers the same absolute URL twice. -/
def dupSnapshot : PageSnapshot :=
  { origin := "http://a", path := "/",
    anchors := [{ href := "http://a/x", text := "t1", rel := none },
                { href := "http://a/x", text := "t2", rel := none }],
    htmlHrefs := [], specificHrefs := [] }

/-- Observable steps of the CLI `program.action` handler in src/index.js. -/
inductive CliEvent where
  | validateUrl
  | printError (msg : String)
  | exitProcess (code : Nat)
  | runHealthCheckCall
  | showMenuCall
deriving DecidableEq

/-- Steps that perform (or lead to) network activity: running the health
check or entering the interactive menu. URL validation is pure parsing. -/
def isNetworkEvent : CliEvent → Bool
  | .runHealthCheckCall => true
  | .showMenuCall => true
  | _ => false

/-- Shallow embedding of the `program.action` handler: validate the URL with
the (platform) URL parser first; on failure print the error and exit with
code 1 before anything else runs; otherwise dispatch on the `--direct` flag. -/
def programAction (wellFormed : String → Bool) (url : String) (direct : Bool) :
    List CliEvent :=
  if !wellFormed url then
    [CliEvent.validateUrl, CliEvent.printError ("Invalid URL: " ++ url),
     CliEvent.exitProcess 1]
  else if direct then
    [CliEvent.validateUrl, CliEvent.runHealthCheckCall]
  else
    [CliEvent.validateUrl, CliEvent.showMenuCall]

/-- A fixed oracle used to instantiate universally quantified environments in
closed witness statements. -/
def defaultNetEnv : NetEnv :=
  { fast := FastOutcome.transportErr ("ECONNREFUSED"),
    fallback := FallbackBehavior.launchErr }

/-- A concrete 12-element URL list. -/
def twelveUrls : List String :=
  ["u1", "u2", "u3", "u4", "u5", "u6", "u7", "u8", "u9", "u10", "u11", "u12"]

/-- Claim C1: for every `LinkCheckResult` produced by `checkLink`, the outcome
is working iff the fast tier produced an HTTP status in [200,400) or a
browser-fallback navigation produced a response object; and the error field
is present iff the outcome is broken. -/
theorem checkLink_outcome_error_iff (url : String) (env : NetEnv) :
    ((checkLink url env).1.working = true ↔ fastStatusOk env ∨ fallbackGaveResponse env) ∧
    ((checkLink url env).1.error.isSome = true ↔ (checkLink url env).1.working = false) := by
  obtain ⟨fast, fb⟩ := env
  cases fast with
  | resp r =>
    obtain ⟨s, ru⟩ := r
    by_cases hamb : s = 403 ∨ s = 400
    · rcases hamb with rfl | rfl <;> cases fb with
      | launchErr =>
          simp [checkLink, runFallback, fastStatusOk, fallbackGaveResponse,
            fallbackAttempted, fallbackHasResponse]
      | newPageErr =>
          simp [checkLink, runFallback, fastStatusOk, fallbackGaveResponse,
            fallbackAttempted, fallbackHasResponse]
      | nav resp =>
          cases resp <;>
            simp [checkLink, runFallback, axiosStatusResult, puppeteerSuccess,
              fastStatusOk, fallbackGaveResponse, fallbackAttempted, fallbackHasResponse]
    · by_cases hok : 200 ≤ s ∧ s < 400
      · simp [checkLink, hamb, axiosStatusResult, hok, fastStatusOk,
          fallbackGaveResponse, fallbackAttempted, puppeteerSuccess]
      · simp [checkLink, hamb, axiosStatusResult, hok, fastStatusOk,
          fallbackGaveResponse, fallbackAttempted, puppeteerSuccess]
  | transportErr code =>
    cases fb with
    | launchErr =>
        simp [checkLink, runFallback, fastStatusOk, fallbackGaveResponse,
          fallbackAttempted, fallbackHasResponse]
    | newPageErr =>
        simp [checkLink, runFallback, fastStatusOk, fallbackGaveResponse,
          fallbackAttempted, fallbackHasResponse]
    | nav resp =>
        cases resp <;>
          simp [checkLink, runFallback, puppeteerSuccess, fastStatusOk,
            fallbackGaveResponse, fallbackAttempted, fallbackHasResponse]

/-- Claim C2: a fast-tier status of exactly 403 or 400 escalates to the
browser fallback (the session events are exactly the fallback's); if the
fallback navigation yields a response object the result is the puppeteer
success (working, `checkedWith = "puppeteer"`); if it yields no response the
result is broken and the original ambiguous status is preserved as the
reported error. -/
theorem checkLink_ambiguous_to_fallback (url ru : String) (s : Nat) (fb : FallbackBehavior)
    (h : s = 403 ∨ s = 400) :
    ((checkLink url { fast := FastOutcome.resp { status := s, responseUrl := ru }, fallback := fb }).2 = (runFallback fb).2) ∧
    (∀ pr : PageResp, fb = FallbackBehavior.nav (some pr) →
      (checkLink url { fast := FastOutcome.resp { status := s, responseUrl := ru }, fallback := fb }).1 = puppeteerSuccess url pr) ∧
    (fallbackHasResponse fb = false →
      (checkLink url { fast := FastOutcome.resp { status := s, responseUrl := ru }, fallback := fb }).1.working = false ∧
      (checkLink url { fast := FastOutcome.resp { status := s, responseUrl := ru }, fallback := fb }).1.error = some ("HTTP status " ++ toString s)) := by
  rcases h with rfl | rfl <;> cases fb with
  | launchErr => simp [checkLink, runFallback, fallbackHasResponse]
  | newPageErr => simp [checkLink, runFallback, fallbackHasResponse]
  | nav resp =>
    cases resp <;>
      simp [checkLink, runFallback, fallbackHasResponse, axiosStatusResult,
        puppeteerSuccess]

/-- Witness for claim C2 at a concrete input: a 403 on the fast tier followed
by a successful browser navigation yields the puppeteer success result. -/
theorem checkLink_ambiguous_witness :
    (checkLink ("http://w") { fast := FastOutcome.resp { status := 403, responseUrl := "http://w" }, fallback := FallbackBehavior.nav (some { status := 200, url := "http://w" }) }).1
      = puppeteerSuccess ("http://w") { status := 200, url := "http://w" } :=
  ((checkLink_ambiguous_to_fallback ("http://w") ("http://w") 403
      (FallbackBehavior.nav (some { status := 200, url := "http://w" })) (Or.inl rfl)).2.1)
    { status := 200, url := "http://w" } rfl

/-- Claim C3: a transport-level failure on the fast tier followed by any
fallback failure (navigation yielding no response, the browser failing to
launch, or `newPage` throwing) still returns a terminal broken result with a
non-null error; `checkLink` is a total function of the oracle, so resolution
never propagates an exception. -/
theorem checkLink_double_failure_broken (url code : String) (fb : FallbackBehavior)
    (h : fallbackHasResponse fb = false) :
    checkLink url { fast := FastOutcome.transportErr code, fallback := fb } =
      ({ url := url, status := 0, working := false, checkedWith := "both",
         redirectUrl := none, error := some code }, (runFallback fb).2) := by
  cases fb with
  | launchErr => simp [checkLink, runFallback]
  | newPageErr => simp [checkLink, runFallback]
  | nav resp =>
    cases resp with
    | none => simp [checkLink, runFallback]
    | some pr => simp [fallbackHasResponse] at h

/-- Witness for claim C3 at a concrete input: connection refused, then the
fallback browser itself fails to start; the result is broken with the
transport error preserved. -/
theorem checkLink_double_failure_witness :
    checkLink ("http://down") { fast := FastOutcome.transportErr ("ECONNREFUSED"), fallback := FallbackBehavior.launchErr } =
      ({ url := "http://down", status := 0, working := false, checkedWith := "both",
         redirectUrl := none, error := some ("ECONNREFUSED") },
       (runFallback FallbackBehavior.launchErr).2) :=
  checkLink_double_failure_broken ("http://down") ("ECONNREFUSED")
    FallbackBehavior.launchErr rfl

/-- Claim C4 (failing-input evaluation): when the fast tier fails at the
transport level and `browser.newPage` throws after a successful launch,
`checkLink` returns with the fallback session opened but never closed — the
catch handler skips `browser.close()` — contradicting the claim that every
opened fallback session is closed before returning. -/
theorem checkLink_session_leak :
    ((checkLink ("http://example.com")
        { fast := FastOutcome.transportErr ("ECONNREFUSED"), fallback := FallbackBehavior.newPageErr }).2 = [BrowserEvent.opened]) ∧
    (((checkLink ("http://example.com")
        { fast := FastOutcome.transportErr ("ECONNREFUSED"), fallback := FallbackBehavior.newPageErr }).2).count BrowserEvent.closed = 0) ∧
    ((checkLink ("http://example.com")
        { fast := FastOutcome.transportErr ("ECONNREFUSED"), fallback := FallbackBehavior.newPageErr }).1.working = false) :=
  ⟨rfl, rfl, rfl⟩

/-- Claim C6: a fast-tier status that is at least 400 and neither 403 nor 400
is classified broken with `error = "HTTP status {status}"`, with `checkedWith
= "axios"`, no browser events, and a result independent of the fallback
behaviour — the fallback tier is not attempted. -/
theorem checkLink_hard_failure_no_fallback (url ru : String) (s : Nat) (fb : FallbackBehavior)
    (h1 : 400 ≤ s) (h2 : s ≠ 403) (h3 : s ≠ 400) :
    checkLink url { fast := FastOutcome.resp { status := s, responseUrl := ru }, fallback := fb } =
      ({ url := url, status := s, working := false, checkedWith := "axios",
         redirectUrl := none, error := some ("HTTP status " ++ toString s) }, []) := by
  have hamb : ¬ (s = 403 ∨ s = 400) := by tauto
  have hok : ¬ (200 ≤ s ∧ s < 400) := by omega
  simp [checkLink, hamb, axiosStatusResult, hok]

/-- Witness for claim C6 at a concrete input: a 500 is broken with error
`HTTP status 500` and no fallback attempt, even when the fallback would have
produced a response. -/
theorem checkLink_hard_failure_witness :
    checkLink ("http://s") { fast := FastOutcome.resp { status := 500, responseUrl := "http://s" }, fallback := FallbackBehavior.nav (some { status := 200, url := "http://s" }) } =
      ({ url := "http://s", status := 500, working := false, checkedWith := "axios",
         redirectUrl := none, error := some ("HTTP status " ++ toString 500) }, []) :=
  checkLink_hard_failure_no_fallback ("http://s") ("http://s") 500
    (FallbackBehavior.nav (some { status := 200, url := "http://s" }))
    (by omega) (by omega) (by omega)

/-- Every result lands in exactly one of the two partitions. -/
theorem length_filter_partition (l : List LinkResult) :
    (l.filter (fun r => r.working)).length + (l.filter (fun r => !r.working)).length
      = l.length := by
  induction l with
  | nil => rfl
  | cons a l ih =>
    by_cases h : a.working <;> simp [List.filter_cons, h] <;> omega

/-- The working partition collected by the batch loop is the in-order filter
of the per-link results over the flattened batches. -/
theorem runBatches_working (env : String → NetEnv) (bs : List (List String)) :
    (runBatches env bs).1 = (bs.flatten.map (resolveOne env)).filter (fun r => r.working) := by
  induction bs with
  | nil => rfl
  | cons b bs ih => simp [runBatches, ih, List.filter_append]

/-- The notWorking partition collected by the batch loop is the in-order
filter of the per-link results over the flattened batches. -/
theorem runBatches_broken (env : String → NetEnv) (bs : List (List String)) :
    (runBatches env bs).2.1 = (bs.flatten.map (resolveOne env)).filter (fun r => !r.working) := by
  induction bs with
  | nil => rfl
  | cons b bs ih => simp [runBatches, ih, List.filter_append]

/-- The scheduling trace: each batch completes as a whole, followed by the
fixed cooldown, before the next batch contributes anything. -/
theorem runBatches_trace (env : String → NetEnv) (bs : List (List String)) :
    (runBatches env bs).2.2 =
      (bs.map (fun b => [SchedEvent.batchDone (b.map (resolveOne env)),
        SchedEvent.delay interBatchDelayMs])).flatten := by
  induction bs with
  | nil => rfl
  | cons b bs ih => simp [runBatches, ih]

/-- The batch partition concatenates back to the original sequence. -/
theorem toBatches_flatten (l : List String) : (toBatches l).flatten = l := by
  induction l using toBatches.induct with
  | case1 => simp [toBatches]
  | case2 x xs ih => rw [toBatches]; simp [ih]

/-- Every batch is nonempty and has at most `batchSize` elements. -/
theorem toBatches_sizes (l : List String) :
    ((toBatches l).all (fun b => decide (b.length ≤ batchSize) && decide (0 < b.length)))
      = true := by
  induction l using toBatches.induct with
  | case1 => simp [toBatches]
  | case2 x xs ih =>
    rw [toBatches, List.all_cons, ih, Bool.and_true]
    simp only [List.length_take, List.length_cons, batchSize, Bool.and_eq_true,
      decide_eq_true_eq]
    omega

/-- Unfolding of `toBatches` on a nonempty list. -/
theorem toBatches_cons_eq (l : List String) (h : l ≠ []) :
    toBatches l = l.take batchSize :: toBatches (l.drop batchSize) := by
  cases l with
  | nil => exact absurd rfl h
  | cons x xs => rw [toBatches]

/-- A 12-element sequence is cut into exactly three batches of sizes 5, 5, 2. -/
theorem toBatches_twelve (l : List String) (h : l.length = 12) :
    (toBatches l).map List.length = [5, 5, 2] := by
  have h0 : l ≠ [] := by
    intro he; rw [he] at h; simp at h
  have hd1 : (l.drop batchSize).length = 7 := by
    rw [List.length_drop, h]; decide
  have h1 : l.drop batchSize ≠ [] := by
    intro he; rw [he] at hd1; simp at hd1
  have hd2 : ((l.drop batchSize).drop batchSize).length = 2 := by
    rw [List.length_drop, hd1]; decide
  have h2 : (l.drop batchSize).drop batchSize ≠ [] := by
    intro he; rw [he] at hd2; simp at hd2
  have hd3 : (((l.drop batchSize).drop batchSize).drop batchSize) = [] := by
    rw [← List.length_eq_zero, List.length_drop, hd2]; decide
  rw [toBatches_cons_eq l h0, toBatches_cons_eq _ h1, toBatches_cons_eq _ h2, hd3]
  simp [toBatches, List.length_take, h, hd1, hd2, batchSize]

/-- Claim C7: the batch scheduler cuts the deduplicated sequence into
consecutive groups of at most `batchSize` preserving order (their
concatenation is the input); a 12-link input yields exactly batches of sizes
5, 5, 2; and the scheduling trace completes each group, then honours the
fixed delay, before the next group appears. -/
theorem batch_scheduler_claims (env : String → NetEnv) (l : List String) :
    (toBatches l).flatten = l ∧
    ((toBatches l).all (fun b => decide (b.length ≤ batchSize) && decide (0 < b.length)))
      = true ∧
    (l.length = 12 → (toBatches l).map List.length = [5, 5, 2]) ∧
    (runBatches env (toBatches l)).2.2 =
      ((toBatches l).map (fun b => [SchedEvent.batchDone (b.map (resolveOne env)),
        SchedEvent.delay interBatchDelayMs])).flatten :=
  ⟨toBatches_flatten l, toBatches_sizes l, fun h => toBatches_twelve l h,
   runBatches_trace env (toBatches l)⟩

/-- Witness for claim C7: on a concrete 12-URL list the batch sizes are
exactly 5, 5, 2. -/
theorem batch_scheduler_witness :
    (toBatches twelveUrls).map List.length = [5, 5, 2] :=
  (batch_scheduler_claims (fun _ => defaultNetEnv) twelveUrls).2.2.1 rfl

/-- Claim C5: the final report partitions the deduplicated link set exactly:
the two detail lists have total length equal to the deduplicated URL count,
and each is the order-preserving filter (by outcome) of the in-order
per-link results. -/
theorem checkLinks_partition (env : String → NetEnv) (pageLinks : List PageLink) :
    ∃ w b, checkLinks env pageLinks = [w, b] ∧
      w.detailsLinks.length + b.detailsLinks.length = (dedupedUrls pageLinks).length ∧
      w.detailsLinks
        = ((dedupedUrls pageLinks).map (resolveOne env)).filter (fun r => r.working) ∧
      b.detailsLinks
        = ((dedupedUrls pageLinks).map (resolveOne env)).filter (fun r => !r.working) := by
  refine ⟨_, _, rfl, ?_, ?_, ?_⟩
  · show ((runBatches env (toBatches (dedupedUrls pageLinks))).1).length
        + ((runBatches env (toBatches (dedupedUrls pageLinks))).2.1).length
      = (dedupedUrls pageLinks).length
    rw [runBatches_working, runBatches_broken, toBatches_flatten,
      length_filter_partition, List.length_map]
  · show (runBatches env (toBatches (dedupedUrls pageLinks))).1 = _
    rw [runBatches_working, toBatches_flatten]
  · show (runBatches env (toBatches (dedupedUrls pageLinks))).2.1 = _
    rw [runBatches_broken, toBatches_flatten]

/-- The shape and statuses of the two formatted report entries. -/
theorem formatResults_statuses (wk nw : List LinkResult) :
    ∃ w b, formatResults wk nw = [w, b] ∧
      w.test = "Working Links" ∧ w.status = "pass" ∧
      w.detailsCount = w.detailsLinks.length ∧
      b.test = "Broken Links" ∧ b.detailsCount = b.detailsLinks.length ∧
      (b.status = "pass" ↔ b.detailsLinks = []) ∧
      (b.status = "fail" ↔ b.detailsLinks ≠ []) := by
  refine ⟨_, _, rfl, rfl, rfl, rfl, rfl, rfl, ?_, ?_⟩ <;>
    by_cases h : nw.length = 0
  · simp [formatResults, h, List.length_eq_zero.mp h]
  · have : nw ≠ [] := by
      intro he; rw [he] at h; simp at h
    simp [formatResults, h, this]
  · simp [formatResults, h, List.length_eq_zero.mp h]
  · have : nw ≠ [] := by
      intro he; rw [he] at h; simp at h
    simp [formatResults, h, this]

/-- Claim C10: the formatted output has a fixed status rule: the Working
Links entry is always `pass` (even with zero working links), the Broken
Links entry is `pass` exactly when the notWorking set is empty and `fail`
otherwise, and each entry's count equals the length of its links list. -/
theorem checkLinks_report_statuses (env : String → NetEnv) (pageLinks : List PageLink) :
    ∃ w b, checkLinks env pageLinks = [w, b] ∧
      w.test = "Working Links" ∧ w.status = "pass" ∧
      w.detailsCount = w.detailsLinks.length ∧
      b.test = "Broken Links" ∧ b.detailsCount = b.detailsLinks.length ∧
      (b.status = "pass" ↔ b.detailsLinks = []) ∧
      (b.status = "fail" ↔ b.detailsLinks ≠ []) := by
  have h := formatResults_statuses
    (runBatches env (toBatches (dedupedUrls pageLinks))).1
    (runBatches env (toBatches (dedupedUrls pageLinks))).2.1
  simpa [checkLinks] using h

/-- Every DOM-pass entry is tagged with source `dom`. -/
theorem domPass_source (origin path : String) (anchors : List DomAnchor) :
    ∀ l ∈ domPass origin path anchors, l.source = "dom" := by
  intro l hl
  rcases List.mem_filterMap.mp hl with ⟨a, _, hfa⟩
  by_cases h : skipHref a.href
  · simp [h] at hfa
  · simp [h] at hfa
    rw [← hfa]

/-- Appending a fresh entry whose href is not yet registered preserves the
scan invariant. -/
theorem goodExtraction_push (links : List ExtractedLink) (found : List String)
    (e : ExtractedLink) (h : goodExtraction links found) (hnew : e.href ∉ found) :
    goodExtraction (links ++ [e]) (e.href :: found) := by
  have hcount0 : (links.map (fun l' => l'.href)).count e.href = 0 := by
    rw [List.count_eq_zero]
    intro hmem
    rcases List.mem_map.mp hmem with ⟨l', hl', he⟩
    exact hnew (he ▸ h.1 l' hl')
  constructor
  · intro l hl
    rcases List.mem_append.mp hl with h1 | h1
    · exact List.mem_cons_of_mem _ (h.1 l h1)
    · rw [List.mem_singleton] at h1
      rw [h1]
      exact List.mem_cons_self _ _
  · intro l hl hsrc
    rcases List.mem_append.mp hl with h1 | h1
    · have h1c := h.2 l h1 hsrc
      have hne : l.href ≠ e.href := fun he => hnew (he ▸ h.1 l h1)
      rw [List.map_append, List.count_append, h1c]
      simp [List.count_cons, hne]
    · rw [List.mem_singleton] at h1
      subst h1
      rw [List.map_append, List.count_append, hcount0]
      simp [List.count_cons]

/-- The scan passes preserve the invariant for any source tag. -/
theorem scanPass_good (origin path source text : String) (rel : Option String)
    (hs : List String) :
    ∀ acc : List ExtractedLink × List String, goodExtraction acc.1 acc.2 →
      goodExtraction (scanPass origin path source text rel hs acc).1
        (scanPass origin path source text rel hs acc).2 := by
  induction hs with
  | nil =>
    intro acc h
    simpa [scanPass] using h
  | cons a as ih =>
    intro acc h
    by_cases hskip : skipHref a
    · rw [scanPass, if_pos hskip]
      exact ih acc h
    · by_cases hmem : acc.2.contains (absolutize origin path a)
      · rw [scanPass, if_neg hskip, if_pos hmem]
        exact ih acc h
      · rw [scanPass, if_neg hskip, if_neg hmem]
        refine ih _ (goodExtraction_push acc.1 acc.2 _ h ?_)
        intro hin
        exact hmem (List.elem_eq_true_of_mem hin)

/-- The DOM pass output satisfies the invariant against its own href set. -/
theorem domPass_good (origin path : String) (anchors : List DomAnchor) :
    goodExtraction (domPass origin path anchors)
      ((domPass origin path anchors).map (fun l => l.href)) := by
  constructor
  · intro l hl
    exact List.mem_map_of_mem _ hl
  · intro l hl hsrc
    exact absurd (domPass_source origin path anchors l hl) hsrc

/-- Claim C8 (counterexample): on `dupSnapshot` the same absolute URL is
discovered by two distinct DOM anchors and appears twice in the extracted
sequence, refuting "a URL discovered more than once appears exactly once in
the extracted set". -/
theorem extractLinks_dom_duplicate_cex :
    ((extractLinks dupSnapshot).map (fun l => l.href)).count ("http://a/x") = 2 := by
  decide

/-- Claim C8 (amended): extraction is a pure function of the snapshot —
running it twice yields the identical ordered sequence — and every URL whose
entry comes from the raw-HTML or specific-pattern scan appears exactly once
in the extracted list; only duplicates arising entirely within the DOM pass
are retained (they are collapsed downstream by `checkLinks`' deduplication). -/
theorem extractLinks_amended (s : PageSnapshot) :
    extractLinks s = extractLinks s ∧
    ((extractLinks s).filter (fun l => l.source != "dom")).all
      (fun l => ((extractLinks s).map (fun l' => l'.href)).count l.href == 1) = true := by
  refine ⟨rfl, ?_⟩
  have h1 := scanPass_good s.origin s.path ("regex") ("") none s.htmlHrefs
    (domPass s.origin s.path s.anchors,
     (domPass s.origin s.path s.anchors).map (fun l => l.href))
    (domPass_good s.origin s.path s.anchors)
  have h2 := scanPass_good s.origin s.path ("specific-pattern") ("Special link") none
    s.specificHrefs _ h1
  rw [List.all_eq_true]
  intro l hl
  rw [List.mem_filter] at hl
  obtain ⟨hmem, hsrcb⟩ := hl
  have hsrc : l.source ≠ "dom" := by simpa using hsrcb
  have hcount := h2.2 l (by simpa [extractLinks] using hmem) hsrc
  simp only [extractLinks]
  rw [hcount]
  rfl

/-- Claim C9: a malformed URL makes the action handler print the error and
exit with code 1 before any component runs — its trace is exactly
validate-print-exit and contains no network-performing step — and the
validation step itself is never a network step. -/
theorem programAction_fail_fast (wellFormed : String → Bool) (url : String) (direct : Bool)
    (h : wellFormed url = false) :
    programAction wellFormed url direct =
      [CliEvent.validateUrl, CliEvent.printError ("Invalid URL: " ++ url),
       CliEvent.exitProcess 1] ∧
    (programAction wellFormed url direct).filter isNetworkEvent = [] ∧
    isNetworkEvent CliEvent.validateUrl = false := by
  refine ⟨?_, ?_, rfl⟩ <;> simp [programAction, h, isNetworkEvent]

/-- Witness for claim C9 at a concrete input: an input rejected by the URL
parser produces exactly the validate-print-exit trace. -/
theorem programAction_fail_fast_witness :
    programAction (fun _ => false) ("not a url") true =
      [CliEvent.validateUrl, CliEvent.printError ("Invalid URL: " ++ "not a url"),
       CliEvent.exitProcess 1] :=
  (programAction_fail_fast (fun _ => false) ("not a url") true rfl).1
